import Mathlib

/-!
Verification of the StockFlow gapper-screener feature pipeline.

Shallow embedding of the Python scripts under scripts/ :
  - score_today_from_polygon.py  (rsi_wilder, compute_features_for_ticker,
    resolve_universe, get_json, score_rows, main)
  - build_candidates_from_polygon.py  (req, today_minute_aggs, compute_rsi,
    avg_daily_volume_30d, the per-ticker row construction in main)
  - daily_ai_score.py  (poly_get, minute_features, daily_features,
    daily_relvol, the minute/daily fallback in main)
  - make_training_from_polygon.py  (api_get, rsi, minute_aggs_one_day)

Prices and volumes are modelled as rationals (ideal real arithmetic; the
scripts use IEEE floats), timestamps and date keys as integers, and every
fallible computation returns an Option, with `none` standing for the
Python code raising an exception or propagating a skip.
-/

open List

/-- A provider bar record: timestamp (ms, or a date key for daily bars),
open, close, volume. The high/low fields are never read by the modelled
code and are omitted. -/
structure Bar where
  t : ℤ
  o : ℚ
  c : ℚ
  v : ℚ
deriving DecidableEq, Repr

/-- Python/numpy max(a, b): b when a ≤ b, else a. Kernel-reducible form of
max on ℚ. -/
def qmax (a b : ℚ) : ℚ := if a ≤ b then b else a

/-- Python/numpy min(a, b): a when a ≤ b, else b. Kernel-reducible form of
min on ℚ. -/
def qmin (a b : ℚ) : ℚ := if a ≤ b then a else b

/-- np.clip(x, lo, hi) = minimum(maximum(x, lo), hi). -/
def npClip (x lo hi : ℚ) : ℚ := qmin (qmax x lo) hi

/-- The last `n` elements of a list (pandas .tail(n), numpy xs[-n:]). -/
def lastN (n : ℕ) (l : List α) : List α := l.drop (l.length - n)

/-- Adjacent price differences: np.diff(closes), closes[i+1] - closes[i]. -/
def deltasOf (closes : List ℚ) : List ℚ :=
  (closes.zip closes.tail).map fun p => p.2 - p.1

/-- One step of a stable insertion sort. `later a b = true` means `a` must
come strictly after `b`; on `false` (which includes key ties) `a` is placed
in front, so an element earlier in the input stays ahead of equal-key
elements, exactly as Python's stable sorts behave. -/
def stInsert (later : α → α → Bool) (a : α) : List α → List α
  | [] => [a]
  | b :: l => if later a b then b :: stInsert later a l else a :: b :: l

/-- Stable insertion sort; models Python's sorted()/list.sort (stable). -/
def stSort (later : α → α → Bool) (l : List α) : List α :=
  l.foldr (stInsert later) []

/-! ## RSI (Wilder) — score_today_from_polygon.rsi_wilder,
build_candidates_from_polygon.compute_rsi, make_training_from_polygon.rsi -/

/-- The continuation loop of rsi_wilder / compute_rsi: one pass over the
post-seed (gain, loss) pairs, updating both running averages with
avg = (avg*(period-1) + new)/period. -/
def wilderLoop (period : ℕ) (avgs : ℚ × ℚ) : List (ℚ × ℚ) → ℚ × ℚ
  | [] => avgs
  | (g, l) :: rest =>
      wilderLoop period
        ((avgs.1 * ((period : ℚ) - 1) + g) / period,
         (avgs.2 * ((period : ℚ) - 1) + l) / period) rest

/-- rsi_wilder(closes, period) from score_today_from_polygon.py (the
identical algorithm appears as compute_rsi in
build_candidates_from_polygon.py, which returns NaN — here `none` — on
short input). Gains/losses via np.where, seed averages as plain means of
the first `period` values, then Wilder smoothing over the remainder. -/
def rsiWilder (closes : List ℚ) (period : ℕ) : Option ℚ :=
  if closes.length < period + 1 then none
  else
    let diffs := deltasOf closes
    let gains := diffs.map fun d => if 0 < d then d else 0
    let losses := diffs.map fun d => if d < 0 then -d else 0
    let seedGain := (gains.take period).sum / period
    let seedLoss := (losses.take period).sum / period
    let avgs := wilderLoop period (seedGain, seedLoss)
      ((gains.drop period).zip (losses.drop period))
    some (if avgs.2 = 0 then 100 else 100 - 100 / (1 + avgs.1 / avgs.2))

/-- Wilder smoothing of one running average, written the way the spec
describes it: a chronological fold of avg = (avg*(P-1) + new)/P. -/
def specSmooth (period : ℕ) (seed : ℚ) (news : List ℚ) : ℚ :=
  news.foldl (fun avg x => (avg * ((period : ℚ) - 1) + x) / period) seed

/-- Modelled from the claim's words (C1 / spec section 4.3): deltas split
into gains (positive deltas, floor 0) and losses (negated negative deltas,
floor 0); averages seeded as the arithmetic mean of the first P values,
smoothed chronologically; final RSI is 100 when the average loss is
exactly 0, else 100 - 100/(1 + avg_gain/avg_loss). -/
def rsiSpec (closes : List ℚ) (period : ℕ) : Option ℚ :=
  if closes.length < period + 1 then none
  else
    let ds := deltasOf closes
    let gains := ds.map fun d => qmax d 0
    let losses := ds.map fun d => qmax (-d) 0
    let avgGain := specSmooth period ((gains.take period).sum / period) (gains.drop period)
    let avgLoss := specSmooth period ((losses.take period).sum / period) (losses.drop period)
    some (if avgLoss = 0 then 100 else 100 - 100 / (1 + avgGain / avgLoss))

/-- The continuation loop of make_training_from_polygon.rsi: carries the
running rsi_val and recomputes it from the smoothed averages after every
step, with the extra 50-when-both-zero case. -/
def mtLoop (period : ℕ) (avgGain avgLoss rsiVal : ℚ) : List (ℚ × ℚ) → ℚ
  | [] => rsiVal
  | (g, l) :: rest =>
      let aG := (avgGain * ((period : ℚ) - 1) + g) / period
      let aL := (avgLoss * ((period : ℚ) - 1) + l) / period
      let smoothed :=
        if aL = 0 ∧ aG = 0 then 50
        else if aL = 0 then 100
        else 100 - 100 / (1 + aG / aL)
      mtLoop period aG aL smoothed rest

/-- rsi(values, period) from make_training_from_polygon.py. Unlike
rsi_wilder it returns 50 when both seeded averages are zero and returns
the seeded 100 without running the continuation loop when the seeded
average loss alone is zero. -/
def rsiMT (values : List ℚ) (period : ℕ) : Option ℚ :=
  if values.length < period + 1 then none
  else
    let ds := deltasOf values
    let gains := ds.map fun d => qmax 0 d
    let losses := ds.map fun d => qmax 0 (-d)
    let avgGain := (gains.take period).sum / period
    let avgLoss := (losses.take period).sum / period
    if avgLoss = 0 ∧ avgGain = 0 then some 50
    else if avgLoss = 0 then some 100
    else
      some (mtLoop period avgGain avgLoss (100 - 100 / (1 + avgGain / avgLoss))
        ((gains.drop period).zip (losses.drop period)))

/-! ## Feature engine — score_today_from_polygon.compute_features_for_ticker -/

/-- The per-ticker feature record returned by compute_features_for_ticker
(score_today_from_polygon.py). `rvol = none` models the NaN-to-None
conversion before the dict is built. -/
structure Feats where
  gap_pct : ℚ
  rsi14m : ℚ
  rvol : Option ℚ
  prev_close : ℚ
  open_0930 : ℚ
deriving DecidableEq, Repr

/-- compute_features_for_ticker from score_today_from_polygon.py, with the
fetched inputs passed as arguments: `prevClose` is the /prev endpoint's
close (none when the results array is empty), `mins` the minute bars in
fetch order, `dailyVols` the volumes of the trailing daily window, and
`startMs` the 13:30 UTC session-start timestamp. The numpy NaN filters are
identity here since ℚ has no NaN. -/
def computeFeaturesForTicker (prevClose : Option ℚ) (mins : List Bar)
    (dailyVols : List ℚ) (startMs : ℤ) (elapsedRaw : ℕ) : Option Feats :=
  match prevClose with
  | none => none
  | some p =>
    if p ≤ 0 then none
    else if mins.isEmpty then none
    else
      match mins.findIdx? (fun m => decide (startMs ≤ m.t)) with
      | none => none
      | some i =>
        match mins.get? i with
        | none => none
        | some m0 =>
          let gapPct := (m0.o - p) / p * 100
          let closesRs := (mins.drop i).map (·.c)
          match rsiWilder closesRs 14 with
          | none => none
          | some rsiVal =>
            let elapsedMin : ℚ := qmax 1 (elapsedRaw : ℚ)
            let cumVol := ((mins.drop i).map (·.v)).sum
            let avgDv := if dailyVols.isEmpty then 0
              else dailyVols.sum / (dailyVols.length : ℚ)
            let rvol : Option ℚ :=
              if 0 < avgDv then
                let expected := avgDv * (elapsedMin / 390)
                if 0 < expected then some (cumVol / expected) else none
              else none
            some { gap_pct := gapPct, rsi14m := rsiVal, rvol := rvol,
                   prev_close := p, open_0930 := m0.o }

/-- The claim's round-trip example: prev_close 100, first-minute open 105,
then 14 more constant-price minutes so the session is minute-resolvable. -/
def minsC2 : List Bar :=
  ⟨0, 105, 1, 0⟩ :: (List.range 14).map fun k => ⟨(k : ℤ) + 1, 1, 1, 0⟩

def fC2 : Feats :=
  { gap_pct := 5, rsi14m := 100, rvol := none, prev_close := 100, open_0930 := 105 }

/-! ## daily_ai_score.py — minute_features, daily_features, daily_relvol -/

/-- Ascending stable sort by timestamp/date key: models
sorted(res, key=lambda r: r["t"]) and pandas sort_values on the date
column. -/
def sortByTime (l : List Bar) : List Bar :=
  stSort (fun a b => decide (b.t < a.t)) l

/-- daily_relvol(ticker, day) from daily_ai_score.py, with the fetched
daily bars passed in. `t` is the date key (the tdate string compared
lexically in the source, which is the chronological order). Returns none
where the Python raises (no daily data / no row for `day`), 1.0 when the
strictly-prior history is empty or its mean volume is non-positive. -/
def dailyRelvol (bars : List Bar) (day : ℤ) : Option ℚ :=
  match bars with
  | [] => none
  | _ :: _ =>
    let s := sortByTime bars
    match (s.filter fun b => decide (b.t = day)).getLast? with
    | none => none
    | some todayBar =>
      let hist := lastN 30 (s.filter fun b => decide (b.t < day))
      if hist.isEmpty then some 1
      else
        let avg30 := (hist.map (·.v)).sum / (hist.length : ℚ)
        if 0 < avg30 then some (todayBar.v / avg30) else some 1

/-- np.diff(closes, prepend=closes[0]): a leading 0 followed by the
adjacent differences; same length as `closes`. -/
def pandasDeltas (closes : List ℚ) : List ℚ :=
  match closes with
  | [] => []
  | _ :: _ => 0 :: deltasOf closes

/-- pandas Series(xs).rolling(roll, min_periods=roll).mean() evaluated at
index `i`: the mean of the `roll` entries ending at `i`, or none (NaN)
when fewer than `roll` entries are available or `i` is out of range. -/
def rollMeanAt (roll : ℕ) (xs : List ℚ) (i : ℕ) : Option ℚ :=
  if i + 1 < roll ∨ xs.length ≤ i then none
  else some ((lastN roll (xs.take (i + 1))).sum / (roll : ℚ))

/-- The rolling-mean RSI of daily_ai_score.py evaluated at index `i`:
up/down = clipped deltas, rs = avg_gain / avg_loss with zero average
losses replaced by NaN (none), rsi = 100 - 100/(1+rs). -/
def pandasRsiAt (closes : List ℚ) (roll : ℕ) (i : ℕ) : Option ℚ :=
  let ds := pandasDeltas closes
  let up := ds.map fun d => qmax d 0
  let down := ds.map fun d => qmax (-d) 0
  match rollMeanAt roll up i, rollMeanAt roll down i with
  | some avgGain, some avgLoss =>
      if avgLoss = 0 then none
      else some (100 - 100 / (1 + avgGain / avgLoss))
  | _, _ => none

/-- rsi.iloc[-1] of daily_ai_score.minute_features. -/
def pandasRsiLast (closes : List ℚ) (roll : ℕ) : Option ℚ :=
  pandasRsiAt closes roll (closes.length - 1)

/-- The FeatureVector row built by daily_ai_score.py (ticker and date
fields carry no logic and are omitted). -/
structure DRow where
  gap_pct : ℚ
  rsi14m : ℚ
  rvol : ℚ
  mode : String
deriving DecidableEq, Repr

/-- minute_features(ticker, day) from daily_ai_score.py with the fetched
minute bars, previous close and daily window passed in. The NaN fallback
value for the rolling RSI is 50. -/
def minuteFeatures (mins : List Bar) (prevClose : ℚ) (dailyBars : List Bar)
    (day : ℤ) : Option DRow :=
  match mins with
  | [] => none
  | m0 :: _ =>
    let gapPct := (m0.o / prevClose - 1) * 100
    let closes := mins.map (·.c)
    if closes.length < 14 + 1 then none
    else
      let rsi14m := (pandasRsiLast closes 14).getD 50
      match dailyRelvol dailyBars day with
      | none => none
      | some rvol =>
        some { gap_pct := npClip gapPct (-40) 40, rsi14m := npClip rsi14m 0 100,
               rvol := npClip rvol 0 15, mode := "minute" }

/-- The last index of `l` satisfying `p`:
dfd.index[dfd["tdate"] == day][-1], none when no row matches. -/
def lastIdxWhere (p : α → Bool) (l : List α) : Option ℕ :=
  ((List.range l.length).filter fun i =>
    match l.get? i with
    | some a => p a
    | none => false).getLast?

/-- daily_features(ticker, day) from daily_ai_score.py: gap from today's
daily open vs the previous row's close, RSI from the rolling-mean recipe
at today's row index, relative volume via daily_relvol on the same
fetched window. -/
def dailyFeatures (bars : List Bar) (day : ℤ) : Option DRow :=
  match bars with
  | [] => none
  | _ :: _ =>
    let s := sortByTime bars
    match lastIdxWhere (fun b => decide (b.t = day)) s with
    | none => none
    | some i =>
      if i = 0 then none
      else
        match s.get? (i - 1), s.get? i with
        | some prevBar, some todayBar =>
          let prevClose := prevBar.c
          let todayOpen := todayBar.o
          let gapPct := (todayOpen / prevClose - 1) * 100
          let closes := s.map (·.c)
          let rsi14 := (pandasRsiAt closes 14 i).getD 50
          match dailyRelvol bars day with
          | none => none
          | some rvol =>
            some { gap_pct := npClip gapPct (-40) 40, rsi14m := npClip rsi14 0 100,
                   rvol := npClip rvol 0 15, mode := "daily" }
        | _, _ => none

/-- The minute/daily fallback chain in daily_ai_score.main: a successful
minute computation is used as-is; a failed one falls back to the daily
computation only when DAILY_FALLBACK is enabled; a failing fallback (or a
disabled one) ends in a skip (`none`) and the loop continues. -/
def resolveTicker (dailyFallback : Bool) (minuteRes dailyRes : Option DRow) :
    Option DRow :=
  match minuteRes with
  | some row => some row
  | none => if dailyFallback then dailyRes else none

/-- Fifteen constant-price minute bars whose first open is 1. -/
def minsC3w : List Bar := (List.range 15).map fun k => ⟨(k : ℤ), 1, 1, 0⟩

/-- Two daily bars: one prior day with volume 10, the scored day with
volume 20 (and open 2, close 3 for the daily-mode gap). -/
def barsRel : List Bar := [⟨0, 1, 1, 10⟩, ⟨1, 2, 3, 20⟩]

def rC3w : DRow := { gap_pct := 0, rsi14m := 50, rvol := 2, mode := "minute" }

def rC5 : DRow := { gap_pct := 40, rsi14m := 50, rvol := 2, mode := "daily" }

/-- The strictly-prior history window of daily_relvol:
dfd[dfd.tdate < day].tail(30). -/
def histOf (bars : List Bar) (day : ℤ) : List Bar :=
  lastN 30 ((sortByTime bars).filter fun b => decide (b.t < day))

/-! ## build_candidates_from_polygon.py — per-ticker row, normalizer, main -/

/-- Python round-half-to-even of an exact rational to an integer. -/
def roundHalfEven (x : ℚ) : ℤ :=
  let f := ⌊x⌋
  let r := x - (f : ℚ)
  if r < 1 / 2 then f
  else if 1 / 2 < r then f + 1
  else if f % 2 = 0 then f else f + 1

/-- Python round(x, n) on exact values. -/
def pyRound (x : ℚ) (n : ℕ) : ℚ := (roundHalfEven (x * 10 ^ n) : ℚ) / 10 ^ n

/-- One output row of build_candidates_from_polygon (latest_screener.csv);
`none` models the empty-string cell written for non-finite values. -/
structure CRow where
  price : Option ℚ
  gapPct : Option ℚ
  relVol : Option ℚ
  rsi14m : Option ℚ
deriving DecidableEq, Repr

/-- The per-ticker body of build_candidates_from_polygon.main, with the
fetched previous close, today's minute bars (already sorted by
today_minute_aggs) and the 30-day average volume passed in. `v30 = none`
models a NaN average. No clamping is applied to any field. -/
def buildCandidatesRow (prevClose : ℚ) (mins : List Bar) (v30 : Option ℚ) :
    Option CRow :=
  if prevClose ≤ 0 then none
  else
    match mins with
    | [] => none
    | m0 :: _ =>
      let firstO := m0.o
      let gapPct := (firstO - prevClose) / prevClose * 100
      let price := ((mins.getLast?).map (·.c)).getD firstO
      let rsi := rsiWilder (mins.map (·.c)) 14
      let cumVol := (mins.map (·.v)).sum
      let rvol : Option ℚ :=
        match v30 with
        | some v => if 0 < v then some (cumVol / v) else none
        | none => none
      some { price := some (pyRound price 4), gapPct := some (pyRound gapPct 4),
             relVol := rvol.map (pyRound · 4), rsi14m := rsi.map (pyRound · 2) }

/-- Fifteen minute bars whose first open is 150 while every close is 1. -/
def minsC3 : List Bar :=
  ⟨0, 150, 1, 0⟩ :: (List.range 14).map fun k => ⟨(k : ℤ) + 1, 1, 1, 0⟩

def rowC3 : CRow :=
  { price := some 1, gapPct := some 50, relVol := none, rsi14m := some 100 }

/-- today_minute_aggs from build_candidates_from_polygon.py: the fetched
minute records sorted ascending by timestamp. No de-duplication is
performed. -/
def todayMinuteAggs (res : List Bar) : List Bar := sortByTime res

/-- minute_aggs_one_day from make_training_from_polygon.py: returns the
provider's results array unmodified (an absent/malformed body gives []). -/
def minuteAggsOneDay (data : Option (List Bar)) : List Bar :=
  match data with
  | none => []
  | some rs => rs

/-! ## Fetch clients — get_json (tenacity), req, api_get -/

/-- Outcome of a fetch loop: parsed success, a raised/returned hard error,
or running out of provided responses. -/
inductive FetchOutcome
  | ok (status : ℕ)
  | err (status : ℕ)
  | exhausted
deriving DecidableEq, Repr

/-- get_json from score_today_from_polygon.py under its tenacity policy
(stop_after_attempt 6, retry on HttpError, reraise). Each list element is
the HTTP status of one outbound request; any status ≥ 400 — 5xx, 429 and
every other non-ok status alike — raises HttpError, which tenacity
retries. Returns the outcome and the number of requests issued. -/
def getJsonRun : ℕ → List ℕ → FetchOutcome × ℕ
  | _, [] => (.exhausted, 0)
  | attemptsLeft, s :: rest =>
      if s < 400 then (.ok s, 1)
      else if attemptsLeft ≤ 1 then (.err s, 1)
      else
        let r := getJsonRun (attemptsLeft - 1) rest
        (r.1, r.2 + 1)

def getJson (responses : List ℕ) : FetchOutcome × ℕ := getJsonRun 6 responses

/-- req from build_candidates_from_polygon.py: up to max_retries = 5
requests; 200 succeeds, 429/502/503 backs off and retries, anything else
raises RuntimeError immediately. -/
def reqRun : ℕ → List ℕ → FetchOutcome × ℕ
  | 0, _ => (.exhausted, 0)
  | _ + 1, [] => (.exhausted, 0)
  | triesLeft + 1, s :: rest =>
      if s = 200 then (.ok s, 1)
      else if s = 429 ∨ s = 502 ∨ s = 503 then
        let r := reqRun triesLeft rest
        (r.1, r.2 + 1)
      else (.err s, 1)

def req (responses : List ℕ) : FetchOutcome × ℕ := reqRun 5 responses

/-- api_get from make_training_from_polygon.py (MAX_RETRIES = 8): 200
succeeds; 429/503/502/504 retries until the attempt budget is reached
(then returns None, modelled as err); any other 4xx returns None at once;
odd 5xx codes retry under the same budget. The attempt argument is the
1-based counter after the loop's increment. -/
def apiGetRun (maxRetries : ℕ) : ℕ → List ℕ → FetchOutcome × ℕ
  | _, [] => (.exhausted, 0)
  | attempt, s :: rest =>
      if s = 200 then (.ok s, 1)
      else if s = 429 ∨ s = 503 ∨ s = 502 ∨ s = 504 then
        if maxRetries ≤ attempt then (.err s, 1)
        else
          let r := apiGetRun maxRetries (attempt + 1) rest
          (r.1, r.2 + 1)
      else if 400 ≤ s ∧ s < 500 then (.err s, 1)
      else if maxRetries ≤ attempt then (.err s, 1)
      else
        let r := apiGetRun maxRetries (attempt + 1) rest
        (r.1, r.2 + 1)

def apiGet (responses : List ℕ) : FetchOutcome × ℕ := apiGetRun 8 1 responses

/-! ## Scorer and mains — score_today_from_polygon.score_rows / main,
build_candidates main exit, daily_ai_score main exit, resolve_universe -/

/-- Python abs. -/
def qabs (x : ℚ) : ℚ := if x < 0 then -x else x

/-- An input row to score_rows (score_today_from_polygon): feature fields
are None-able. -/
structure SRowIn where
  ticker : String
  gap : Option ℚ
  rvol : Option ℚ
  rsi : Option ℚ
deriving DecidableEq, Repr

/-- A scored, ranked output row. -/
structure SRowOut where
  ticker : String
  gap : ℚ
  rvol : ℚ
  rsi : ℚ
  score : ℚ
  rank : ℕ
deriving DecidableEq, Repr

/-- The model-absent fallback score of score_rows:
0.5*(clip(gap,-40,40)+40)/80 + 0.3*clip(rvol,0,10)/10
+ 0.2*(1-|rsi-50|/50). -/
def fallbackScore (gap rvol rsi : ℚ) : ℚ :=
  let g := (npClip gap (-40) 40 + 40) / 80
  let v := npClip rvol 0 10 / 10
  let r := 1 - qabs (rsi - 50) / 50
  1 / 2 * g + 3 / 10 * v + 1 / 5 * r

/-- The keep-filter of score_rows: rows with any missing feature are
dropped; the rest are scored (model-absent path). -/
def keepOf (rows : List SRowIn) : List SRowOut :=
  rows.filterMap fun r =>
    match r.gap, r.rvol, r.rsi with
    | some g, some v, some s =>
        some { ticker := r.ticker, gap := g, rvol := v, rsi := s,
               score := fallbackScore g v s, rank := 0 }
    | _, _, _ => none

/-- keep.sort(key=score, reverse=True): Python's stable sort, descending
by score only — ties stay in input order. -/
def scoreLater (a b : SRowOut) : Bool := decide (a.score < b.score)

def sortedOf (rows : List SRowIn) : List SRowOut := stSort scoreLater (keepOf rows)

/-- for i, r in enumerate(keep, start=1): r["rank"] = i. -/
def assignRanks : ℕ → List SRowOut → List SRowOut
  | _, [] => []
  | n, r :: rest => { r with rank := n } :: assignRanks (n + 1) rest

/-- score_rows(model=None, rows) from score_today_from_polygon.py. -/
def scoreRows (rows : List SRowIn) : List SRowOut :=
  assignRanks 1 (sortedOf rows)

/-- score_today_from_polygon.main, with the per-ticker feature/price-band
outcomes passed in (none = skip or caught exception): collects rows,
scores and ranks them, writes the output and finishes with exit status 0
regardless of how many rows were usable. -/
def scoreTodayMainRun (results : List (Option SRowIn)) : ℕ × List SRowOut :=
  (0, scoreRows (results.filterMap id))

/-- build_candidates_from_polygon.main completion status: sys.exit(2) when
no usable rows were built, else normal exit after writing the CSV. -/
def buildMainExit (results : List (Option CRow)) : ℕ :=
  if (results.filterMap id).isEmpty then 2 else 0

/-- daily_ai_score.main completion status: 2 when no rows were built, 3
when model scoring raised, else 0. -/
def dailyMainExit (results : List (Option DRow)) (scoringOk : Bool) : ℕ :=
  if (results.filterMap id).isEmpty then 2 else if scoringOk then 0 else 3

/-- Python l[:n] for an integer n (negative n counts from the end). -/
def pySlice (l : List String) (n : ℤ) : List String :=
  if 0 ≤ n then l.take n.toNat else l.take (l.length - (-n).toNat)

/-- The hardcoded last-resort universe of resolve_universe. -/
def defaultUniverse : List String := ["AAPL", "TSLA", "AMD", "NVDA"]

/-- resolve_universe from score_today_from_polygon.py, with the
environment-dependent inputs passed in: the parsed Finviz file tickers
(consulted only when UNIVERSE_SOURCE is FINVIZ_FILE), the explicit
UNIVERSE env tickers, and MAX_TICKERS. -/
def resolveUniverse (universeSource : String)
    (finvizTickers explicitTickers : List String) (maxTickers : ℤ) :
    List String :=
  if universeSource = "FINVIZ_FILE" ∧ finvizTickers ≠ [] then
    pySlice finvizTickers maxTickers
  else if explicitTickers ≠ [] then pySlice explicitTickers maxTickers
  else pySlice defaultUniverse maxTickers

def srowZ : SRowIn := { ticker := "ZZZ", gap := some 0, rvol := some 0, rsi := some 50 }

def srowA : SRowIn := { ticker := "AAA", gap := some 0, rvol := some 0, rsi := some 50 }

/-! ## Theorems -/

theorem qmax_eq_max (a b : ℚ) : qmax a b = max a b := by
  rcases le_or_lt a b with h | h
  · simp [qmax, h, max_eq_right h]
  · simp [qmax, not_le.mpr h, max_eq_left h.le]

theorem qmin_eq_min (a b : ℚ) : qmin a b = min a b := by
  rcases le_or_lt a b with h | h
  · simp [qmin, h, min_eq_left h]
  · simp [qmin, not_le.mpr h, min_eq_right h.le]

theorem npClip_eq (x lo hi : ℚ) : npClip x lo hi = min (max x lo) hi := by
  rw [npClip, qmin_eq_min, qmax_eq_max]

theorem stInsert_perm (later : α → α → Bool) (a : α) (l : List α) :
    stInsert later a l ~ a :: l := by
  induction l with
  | nil => simp [stInsert]
  | cons b t ih =>
    by_cases h : later a b
    · simpa [stInsert, h] using ((ih.cons b).trans (List.Perm.swap a b t))
    · simp [stInsert, h]

theorem stSort_perm (later : α → α → Bool) (l : List α) : stSort later l ~ l := by
  induction l with
  | nil => rfl
  | cons x t ih => exact (stInsert_perm later x (stSort later t)).trans (ih.cons x)

theorem stInsert_pairwise {R : α → α → Prop} (later : α → α → Bool)
    (htrans : ∀ a b c, R a b → R b c → R a c)
    (hT : ∀ a b, later a b = true → R b a)
    (hF : ∀ a b, later a b = false → R a b)
    (a : α) (l : List α) (hl : l.Pairwise R) :
    (stInsert later a l).Pairwise R := by
  induction l with
  | nil => simp [stInsert]
  | cons b t ih =>
    rcases List.pairwise_cons.mp hl with ⟨hb, ht⟩
    by_cases h : later a b
    · have hrec := ih ht
      have hmem : ∀ y ∈ stInsert later a t, R b y := by
        intro y hy
        have hy2 : y ∈ a :: t := (stInsert_perm later a t).mem_iff.mp hy
        rcases List.mem_cons.mp hy2 with rfl | hyt
        · exact hT _ _ h
        · exact hb _ hyt
      simpa [stInsert, h] using List.pairwise_cons.mpr ⟨hmem, hrec⟩
    · have hab : R a b := hF a b (by simpa using h)
      have hat : ∀ y ∈ t, R a y := fun y hy => htrans a b y hab (hb y hy)
      simp only [stInsert, h, if_false]
      exact List.pairwise_cons.mpr ⟨by
        intro y hy
        rcases List.mem_cons.mp hy with rfl | hyt
        · exact hab
        · exact hat _ hyt, hl⟩

theorem stSort_pairwise {R : α → α → Prop} (later : α → α → Bool)
    (htrans : ∀ a b c, R a b → R b c → R a c)
    (hT : ∀ a b, later a b = true → R b a)
    (hF : ∀ a b, later a b = false → R a b)
    (l : List α) : (stSort later l).Pairwise R := by
  induction l with
  | nil => simp [stSort]
  | cons x t ih => exact stInsert_pairwise later htrans hT hF x (stSort later t) ih

theorem stInsert_filter (later : α → α → Bool) (p : α → Bool)
    (hp : ∀ a b, p a = true → p b = true → later a b = false)
    (a : α) (l : List α) :
    (stInsert later a l).filter p =
      if p a then a :: l.filter p else l.filter p := by
  induction l with
  | nil => by_cases h : p a <;> simp [stInsert, List.filter, h]
  | cons b t ih =>
    by_cases h : later a b
    · have hrw : (stInsert later a (b :: t)).filter p
          = List.filter p (b :: stInsert later a t) := by simp [stInsert, h]
      by_cases hpa : p a
      · have hpb : p b = false := by
          by_contra hb
          have := hp a b hpa (by simpa using hb)
          simp [this] at h
        rw [hrw]
        simp [List.filter, hpb, ih, hpa]
      · rw [hrw]
        by_cases hpb : p b <;> simp [List.filter, hpb, ih, hpa]
    · by_cases hpa : p a <;> by_cases hpb : p b <;>
        simp [stInsert, h, List.filter, hpa, hpb]

theorem stSort_filter (later : α → α → Bool) (p : α → Bool)
    (hp : ∀ a b, p a = true → p b = true → later a b = false)
    (l : List α) : (stSort later l).filter p = l.filter p := by
  induction l with
  | nil => rfl
  | cons x t ih =>
    show (stInsert later x (stSort later t)).filter p = _
    rw [stInsert_filter later p hp]
    by_cases hpx : p x <;> simp [List.filter, hpx, ih]

theorem wilderLoop_eq_specSmooth (period : ℕ) :
    ∀ (gs ls : List ℚ) (a b : ℚ), gs.length = ls.length →
      wilderLoop period (a, b) (gs.zip ls) =
        (specSmooth period a gs, specSmooth period b ls) := by
  intro gs
  induction gs with
  | nil =>
    intro ls a b hlen
    cases ls with
    | nil => rfl
    | cons y ys => simp at hlen
  | cons x xs ih =>
    intro ls a b hlen
    cases ls with
    | nil => simp at hlen
    | cons y ys =>
      simp only [List.zip_cons_cons, wilderLoop, specSmooth, List.foldl_cons]
      exact ih ys _ _ (by simpa using hlen)

theorem ifPos_eq_max (d : ℚ) : (if 0 < d then d else 0) = qmax d 0 := by
  rw [qmax_eq_max]
  rcases le_or_lt d 0 with h | h
  · simp [max_eq_right h, not_lt.mpr h]
  · simp [max_eq_left h.le, h]

theorem ifNeg_eq_max (d : ℚ) : (if d < 0 then -d else 0) = qmax (-d) 0 := by
  rw [qmax_eq_max]
  rcases le_or_lt 0 d with h | h
  · simp [max_eq_right (neg_nonpos.mpr h), not_lt.mpr h]
  · simp [max_eq_left (neg_nonneg.mpr h.le), h]

/-- C1 (amended): for every close sequence with at least period+1 values,
rsi_wilder (score_today_from_polygon; compute_rsi in
build_candidates_from_polygon is the same algorithm) computes exactly the
claim's Wilder definition — seeded arithmetic means of the first P
gains/losses, chronological smoothing avg = (avg*(P-1)+new)/P, final RSI
100 when the computed average loss is 0 and 100 - 100/(1+avg_gain/avg_loss)
otherwise — and returns a value rather than failing. The make_training
variant rsi deviates (see the counterexample). -/
theorem C1_rsi_wilder_follows_spec (closes : List ℚ) (period : ℕ)
    (hlen : period + 1 ≤ closes.length) :
    rsiWilder closes period = rsiSpec closes period ∧
      (rsiWilder closes period).isSome := by
  have hguard : ¬(closes.length < period + 1) := not_lt.mpr hlen
  have hg : (deltasOf closes).map (fun d => if 0 < d then d else 0)
      = (deltasOf closes).map fun d => qmax d 0 :=
    List.map_congr_left fun d _ => ifPos_eq_max d
  have hl : (deltasOf closes).map (fun d => if d < 0 then -d else 0)
      = (deltasOf closes).map fun d => qmax (-d) 0 :=
    List.map_congr_left fun d _ => ifNeg_eq_max d
  constructor
  · rw [rsiWilder, rsiSpec, if_neg hguard, if_neg hguard]
    simp only [hg, hl]
    rw [wilderLoop_eq_specSmooth]
    simp [List.length_drop, List.length_map]
  · rw [rsiWilder, if_neg hguard]
    rfl

/-- C1 witness: a concrete 15-close sequence on which the theorem's
hypothesis holds. -/
theorem C1_rsi_wilder_follows_spec_witness :
    rsiWilder [1, 2, 3, 4, 5, 6, 7, 8, 9, 10, 11, 12, 13, 12, 11] 14
      = rsiSpec [1, 2, 3, 4, 5, 6, 7, 8, 9, 10, 11, 12, 13, 12, 11] 14 ∧
    (rsiWilder [1, 2, 3, 4, 5, 6, 7, 8, 9, 10, 11, 12, 13, 12, 11] 14).isSome :=
  C1_rsi_wilder_follows_spec _ 14 (by simp)

/-- C1 counterexample: on a constant 15-close sequence the computed
average loss is exactly 0, so the claim demands RSI = 100, but the cited
make_training_from_polygon.rsi returns 50 on the same input; and on 14
gains followed by one loss it returns the seeded 100 without running the
smoothing continuation, where Wilder's recurrence gives 1300/27. -/
theorem C1_counterexample :
    rsiMT [1, 1, 1, 1, 1, 1, 1, 1, 1, 1, 1, 1, 1, 1, 1] 14 = some 50 ∧
    rsiSpec [1, 1, 1, 1, 1, 1, 1, 1, 1, 1, 1, 1, 1, 1, 1] 14 = some 100 ∧
    (50 : ℚ) ≠ 100 ∧
    rsiMT [0, 1, 2, 3, 4, 5, 6, 7, 8, 9, 10, 11, 12, 13, 14, 0] 14 = some 100 ∧
    rsiSpec [0, 1, 2, 3, 4, 5, 6, 7, 8, 9, 10, 11, 12, 13, 14, 0] 14
      = some (1300 / 27) ∧
    (100 : ℚ) ≠ 1300 / 27 :=
  ⟨by norm_num [rsiMT, deltasOf, qmax],
   by norm_num [rsiSpec, deltasOf, qmax, specSmooth], by norm_num,
   by norm_num [rsiMT, deltasOf, qmax, mtLoop],
   by norm_num [rsiSpec, deltasOf, qmax, specSmooth], by norm_num⟩

/-- C2: with a strictly positive previous close the produced gap
percentage is exactly (first_bar.open - prev_close) / prev_close * 100
(the record stores that first bar's open as open_0930); a missing or
non-positive previous close skips the whole ticker/day with the typed
skip value `none` — the model is a total function, so no exception can
escape. -/
theorem C2_gap_and_skip (pc : Option ℚ) (mins : List Bar) (dailyVols : List ℚ)
    (startMs : ℤ) (elapsedRaw : ℕ) :
    (pc = none →
      computeFeaturesForTicker pc mins dailyVols startMs elapsedRaw = none) ∧
    (∀ p, pc = some p → p ≤ 0 →
      computeFeaturesForTicker pc mins dailyVols startMs elapsedRaw = none) ∧
    (∀ p f, pc = some p → 0 < p →
      computeFeaturesForTicker pc mins dailyVols startMs elapsedRaw = some f →
      f.prev_close = p ∧ f.gap_pct = (f.open_0930 - p) / p * 100) := by
  refine ⟨fun h => by rw [h, computeFeaturesForTicker], ?_, ?_⟩
  · intro p hpc hp
    rw [hpc]
    simp only [computeFeaturesForTicker, if_pos hp]
  · intro p f hpc hp hsome
    rw [hpc] at hsome
    simp only [computeFeaturesForTicker, if_neg (not_le.mpr hp)] at hsome
    split at hsome
    · exact absurd hsome (by simp)
    · split at hsome
      · exact absurd hsome (by simp)
      · split at hsome
        · exact absurd hsome (by simp)
        · split at hsome
          · exact absurd hsome (by simp)
          · rcases Option.some.inj hsome with rfl
            exact ⟨rfl, rfl⟩

/-- C2 witness: the round-trip instance prev_close = 100, open = 105 gives
gap_pct = 5 exactly, through the theorem. -/
theorem C2_gap_and_skip_witness :
    computeFeaturesForTicker (some 100) minsC2 [] 0 390 = some fC2 ∧
    fC2.prev_close = 100 ∧ fC2.gap_pct = (fC2.open_0930 - 100) / 100 * 100 ∧
    fC2.gap_pct = 5 := by
  have heval : computeFeaturesForTicker (some 100) minsC2 [] 0 390 = some fC2 := by
    norm_num [computeFeaturesForTicker, minsC2, fC2, rsiWilder, deltasOf, qmax,
      wilderLoop, List.findIdx?, List.range_succ]
  have happ := (C2_gap_and_skip (some 100) minsC2 [] 0 390).2.2 100 fC2 rfl
    (by norm_num) heval
  exact ⟨heval, happ.1, happ.2, by norm_num [fC2]⟩

theorem npClip_le_hi (x lo hi : ℚ) : npClip x lo hi ≤ hi := by
  rw [npClip_eq]; exact min_le_right _ _

theorem lo_le_npClip (x lo hi : ℚ) (h : lo ≤ hi) : lo ≤ npClip x lo hi := by
  rw [npClip_eq]; exact le_min (le_max_right x lo) h

theorem minuteFeatures_inv (mins : List Bar) (pc : ℚ) (dbars : List Bar)
    (day : ℤ) (r : DRow) (h : minuteFeatures mins pc dbars day = some r) :
    ∃ g s v, r = { gap_pct := npClip g (-40) 40, rsi14m := npClip s 0 100,
                   rvol := npClip v 0 15, mode := "minute" } := by
  simp only [minuteFeatures] at h
  split at h
  · exact absurd h (by simp)
  · split at h
    · exact absurd h (by simp)
    · split at h
      · exact absurd h (by simp)
      · exact ⟨_, _, _, (Option.some.inj h).symm⟩

theorem dailyFeatures_inv (bars : List Bar) (day : ℤ) (r : DRow)
    (h : dailyFeatures bars day = some r) :
    ∃ g s v, r = { gap_pct := npClip g (-40) 40, rsi14m := npClip s 0 100,
                   rvol := npClip v 0 15, mode := "daily" } := by
  simp only [dailyFeatures] at h
  split at h
  · exact absurd h (by simp)
  · split at h
    · exact absurd h (by simp)
    · split at h
      · exact absurd h (by simp)
      · split at h
        · split at h
          · exact absurd h (by simp)
          · exact ⟨_, _, _, (Option.some.inj h).symm⟩
        · exact absurd h (by simp)

/-- C3 (amended): every FeatureVector produced by daily_ai_score
(minute_features or daily_features) has gap_pct in [-40, 40], rsi in
[0, 100] and rvol in [0, 15], by clamping after computation. The
build_candidates and score_today pipelines do not clamp (see the
counterexample). -/
theorem C3_daily_ai_clamped (mins : List Bar) (pc : ℚ) (dbars : List Bar)
    (day : ℤ) (r : DRow)
    (h : minuteFeatures mins pc dbars day = some r ∨
         dailyFeatures dbars day = some r) :
    -40 ≤ r.gap_pct ∧ r.gap_pct ≤ 40 ∧ 0 ≤ r.rsi14m ∧ r.rsi14m ≤ 100 ∧
      0 ≤ r.rvol ∧ r.rvol ≤ 15 := by
  have hr : ∃ g s v m, r = { gap_pct := npClip g (-40) 40,
                             rsi14m := npClip s 0 100,
                             rvol := npClip v 0 15, mode := m } := by
    rcases h with h | h
    · rcases minuteFeatures_inv mins pc dbars day r h with ⟨g, s, v, hr⟩
      exact ⟨g, s, v, _, hr⟩
    · rcases dailyFeatures_inv dbars day r h with ⟨g, s, v, hr⟩
      exact ⟨g, s, v, _, hr⟩
  rcases hr with ⟨g, s, v, m, rfl⟩
  refine ⟨lo_le_npClip _ _ _ (by norm_num), npClip_le_hi _ _ _,
    lo_le_npClip _ _ _ (by norm_num), npClip_le_hi _ _ _,
    lo_le_npClip _ _ _ (by norm_num), npClip_le_hi _ _ _⟩

/-- C3 witness: a concrete minute session whose clamped FeatureVector the
theorem bounds. -/
theorem C3_daily_ai_clamped_witness :
    minuteFeatures minsC3w 1 barsRel 1 = some rC3w ∧
    (-40 ≤ rC3w.gap_pct ∧ rC3w.gap_pct ≤ 40 ∧ 0 ≤ rC3w.rsi14m ∧
      rC3w.rsi14m ≤ 100 ∧ 0 ≤ rC3w.rvol ∧ rC3w.rvol ≤ 15) := by
  have heval : minuteFeatures minsC3w 1 barsRel 1 = some rC3w := by
    norm_num [minuteFeatures, minsC3w, barsRel, rC3w, pandasRsiLast, pandasRsiAt,
      pandasDeltas, deltasOf, rollMeanAt, lastN, qmax, qmin, npClip, dailyRelvol,
      sortByTime, stSort, stInsert, List.range_succ]
  exact ⟨heval, C3_daily_ai_clamped minsC3w 1 barsRel 1 rC3w (Or.inl heval)⟩

/-- C5: the fallback chain of daily_ai_score.main — a minute-mode
insufficiency with a successful daily computation yields that daily-mode
FeatureVector (resolution_mode "daily"); when both computations fail the
ticker/day resolves to the typed skip `none` (the loop continues, nothing
is raised); with the daily fallback disabled a minute failure skips
directly. -/
theorem C5_resolver (bars : List Bar) (day : ℤ) (r : DRow) (fb : Bool)
    (d : Option DRow) :
    (dailyFeatures bars day = some r →
      resolveTicker true none (dailyFeatures bars day) = some r ∧
        r.mode = "daily") ∧
    resolveTicker fb none none = none ∧
    resolveTicker false none d = none := by
  refine ⟨fun h => ⟨by simp [resolveTicker, h], ?_⟩,
    by cases fb <;> simp [resolveTicker], by simp [resolveTicker]⟩
  rcases dailyFeatures_inv bars day r h with ⟨g, s, v, rfl⟩
  rfl

/-- C5 witness: a session with no minute result and two daily bars covering
the scored day resolves to a daily-mode FeatureVector. -/
theorem C5_resolver_witness :
    resolveTicker true none (dailyFeatures barsRel 1) = some rC5 ∧
    rC5.mode = "daily" := by
  have heval : dailyFeatures barsRel 1 = some rC5 := by
    norm_num [dailyFeatures, barsRel, rC5, sortByTime, stSort, stInsert,
      lastIdxWhere, List.range_succ, pandasRsiAt, pandasDeltas, deltasOf,
      rollMeanAt, lastN, qmax, qmin, npClip, dailyRelvol]
  exact (C5_resolver barsRel 1 rC5 true none).1 heval

/-- C4 (amended): daily_relvol divides the scored day's volume by the
arithmetic mean of up to the trailing 30 volumes strictly preceding the
session (the session itself excluded), whenever at least one prior
observation exists and that mean is positive. No five-observation minimum
exists: an empty prior history yields the fallback value 1.0 instead of
an InsufficientData signal (see the counterexample). -/
theorem C4_relvol (bars : List Bar) (day : ℤ) (tb : Bar)
    (htoday : ((sortByTime bars).filter fun b => decide (b.t = day)).getLast?
      = some tb) :
    (∀ b ∈ histOf bars day, b ∈ bars ∧ b.t < day) ∧
    (histOf bars day).length ≤ 30 ∧
    (histOf bars day = [] → dailyRelvol bars day = some 1) ∧
    (histOf bars day ≠ [] →
      0 < ((histOf bars day).map (·.v)).sum / ((histOf bars day).length : ℚ) →
      dailyRelvol bars day = some (tb.v /
        (((histOf bars day).map (·.v)).sum / ((histOf bars day).length : ℚ)))) := by
  obtain ⟨b0, bars2, rfl⟩ : ∃ b0 bars2, bars = b0 :: bars2 := by
    cases bars with
    | nil => simp [sortByTime, stSort] at htoday
    | cons b0 bars2 => exact ⟨b0, bars2, rfl⟩
  refine ⟨?_, ?_, ?_, ?_⟩
  · intro b hb
    have hfil : b ∈ (sortByTime (b0 :: bars2)).filter fun x => decide (x.t < day) :=
      List.drop_subset _ _ hb
    have hmem := List.mem_filter.mp hfil
    exact ⟨(stSort_perm _ _).subset hmem.1, by simpa using hmem.2⟩
  · simp only [histOf, lastN, List.length_drop]
    omega
  · intro hemp
    simp only [histOf] at hemp
    simp only [dailyRelvol, htoday]
    simp [List.isEmpty_iff, hemp]
  · intro hne hpos
    simp only [histOf] at hne hpos
    simp only [dailyRelvol, htoday]
    rw [if_neg (by simpa [List.isEmpty_iff] using hne), if_pos hpos]
    rfl

/-- C4 witness: one strictly-prior observation (volume 10) and a scored
day with volume 20 give rel_vol = 20 / mean([10]) through the theorem. -/
theorem C4_relvol_witness :
    dailyRelvol barsRel 1 = some ((20 : ℚ) /
      (((histOf barsRel 1).map (·.v)).sum / ((histOf barsRel 1).length : ℚ))) :=
  (C4_relvol barsRel 1 ⟨1, 2, 3, 20⟩
      (by norm_num [sortByTime, stSort, stInsert, barsRel])).2.2.2
    (by norm_num [histOf, barsRel, sortByTime, stSort, stInsert, lastN])
    (by norm_num [histOf, barsRel, sortByTime, stSort, stInsert, lastN])

/-- C4 counterexample: with exactly one prior observation — fewer than the
five the claim requires — daily_relvol still returns a number (20/10 = 2)
rather than an InsufficientData signal. -/
theorem C4_counterexample :
    dailyRelvol barsRel 1 = some 2 ∧ (histOf barsRel 1).length = 1 ∧
      (1 : ℕ) < 5 := by
  refine ⟨?_, ?_, by norm_num⟩
  · norm_num [dailyRelvol, barsRel, sortByTime, stSort, stInsert, lastN]
  · norm_num [histOf, barsRel, sortByTime, stSort, stInsert, lastN]

/-- C3 counterexample: build_candidates_from_polygon emits a FeatureVector
with gap_pct = 50, outside the claimed clamp range [-40, 40] — its cited
row construction performs no clamping. -/
theorem C3_counterexample :
    buildCandidatesRow 100 minsC3 none = some rowC3 ∧
    rowC3.gapPct = some 50 ∧ ¬((50 : ℚ) ≤ 40) := by
  refine ⟨?_, rfl, by norm_num⟩
  norm_num [buildCandidatesRow, minsC3, rowC3, rsiWilder, deltasOf, wilderLoop,
    pyRound, roundHalfEven, List.range_succ, List.getLast?]

/-- C9 (amended): today_minute_aggs returns a permutation of the fetched
records, stably sorted ascending by timestamp (records with equal
timestamps keep their original fetch order); duplicate timestamps are
retained, not last-write-wins de-duplicated, and minute_aggs_one_day
passes the provider array through unchanged. -/
theorem C9_sorted_no_dedup (l : List Bar) (k : ℤ) (rs : List Bar) :
    (todayMinuteAggs l).Pairwise (fun a b => a.t ≤ b.t) ∧
    todayMinuteAggs l ~ l ∧
    (todayMinuteAggs l).filter (fun b => decide (b.t = k)) =
      l.filter (fun b => decide (b.t = k)) ∧
    minuteAggsOneDay (some rs) = rs := by
  simp only [todayMinuteAggs, sortByTime]
  refine ⟨?_, stSort_perm _ l, ?_, rfl⟩
  · refine stSort_pairwise (fun a b => decide (b.t < a.t)) ?_ ?_ ?_ l
    · exact fun a b c hab hbc => le_trans hab hbc
    · intro a b h
      have hlt : b.t < a.t := by simpa using h
      exact hlt.le
    · intro a b h
      have hnlt : ¬b.t < a.t := by simpa using h
      exact not_lt.mp hnlt
  · refine stSort_filter (fun a b => decide (b.t < a.t)) _ ?_ l
    intro a b ha hb
    have ha2 : a.t = k := by simpa using ha
    have hb2 : b.t = k := by simpa using hb
    simp [ha2, hb2]

/-- C9 counterexample: two distinct fetched records with the same
timestamp both survive normalization — the claim's no-duplicate invariant
and last-write-wins rule fail. -/
theorem C9_counterexample :
    todayMinuteAggs [⟨1, 0, 0, 10⟩, ⟨1, 0, 0, 20⟩]
      = [⟨1, 0, 0, 10⟩, ⟨1, 0, 0, 20⟩] ∧
    (⟨1, 0, 0, 10⟩ : Bar).t = (⟨1, 0, 0, 20⟩ : Bar).t ∧
    (⟨1, 0, 0, 10⟩ : Bar) ≠ (⟨1, 0, 0, 20⟩ : Bar) := by
  refine ⟨?_, rfl, ?_⟩
  · norm_num [todayMinuteAggs, sortByTime, stSort, stInsert]
  · intro h
    have := congrArg Bar.v h
    norm_num at this

/-- C6 (amended): req and api_get fail after exactly one request, with no
retry, on any 4xx status other than 429; get_json however wraps every
non-ok status — 401/403 and other 4xx included — in the retryable
HttpError, so it issues a further request instead of failing immediately. -/
theorem C6_no_retry_4xx (s : ℕ) (rest : List ℕ)
    (h4 : 400 ≤ s) (h5 : s < 500) (h429 : s ≠ 429) :
    req (s :: rest) = (.err s, 1) ∧
    apiGet (s :: rest) = (.err s, 1) ∧
    getJson (s :: rest) = ((getJsonRun 5 rest).1, (getJsonRun 5 rest).2 + 1) := by
  have h200 : ¬s = 200 := by omega
  have hretryR : ¬(s = 429 ∨ s = 502 ∨ s = 503) := by omega
  have hretryA : ¬(s = 429 ∨ s = 503 ∨ s = 502 ∨ s = 504) := by omega
  have hclient : 400 ≤ s ∧ s < 500 := ⟨h4, h5⟩
  refine ⟨?_, ?_, ?_⟩
  · show reqRun 5 (s :: rest) = (.err s, 1)
    rw [reqRun, if_neg h200, if_neg hretryR]
  · show apiGetRun 8 1 (s :: rest) = (.err s, 1)
    rw [apiGetRun, if_neg h200, if_neg hretryA, if_pos hclient]
  · show getJsonRun 6 (s :: rest) = _
    rw [getJsonRun, if_neg (by omega), if_neg (by norm_num)]

/-- C6 witness: a 403 on req and api_get fails after one request with no
retry. -/
theorem C6_no_retry_4xx_witness :
    req [403, 200] = (FetchOutcome.err 403, 1) ∧
    apiGet [403, 200] = (FetchOutcome.err 403, 1) ∧
    getJson [403, 200] = ((getJsonRun 5 [200]).1, (getJsonRun 5 [200]).2 + 1) :=
  C6_no_retry_4xx 403 [200] (by norm_num) (by norm_num) (by norm_num)

/-- C6 counterexample: get_json, cited by the claim, does not fail
immediately on an auth-failure 403 — it retries and the next request
succeeds, so two requests are issued. -/
theorem C6_counterexample :
    getJson [403, 200] = (FetchOutcome.ok 200, 2) ∧ (2 : ℕ) ≠ 1 := by
  exact ⟨by decide, by norm_num⟩

theorem assignRanks_map_rank (n : ℕ) (l : List SRowOut) :
    (assignRanks n l).map (·.rank) = List.range' n l.length := by
  induction l generalizing n with
  | nil => rfl
  | cons r t ih => simp [assignRanks, List.range'_succ, ih]

theorem assignRanks_map_score (n : ℕ) (l : List SRowOut) :
    (assignRanks n l).map (·.score) = l.map (·.score) := by
  induction l generalizing n with
  | nil => rfl
  | cons r t ih => simp [assignRanks, ih]

theorem assignRanks_length (n : ℕ) (l : List SRowOut) :
    (assignRanks n l).length = l.length := by
  induction l generalizing n with
  | nil => rfl
  | cons r t ih => simp [assignRanks, ih]

/-- C8 (amended): score_rows sorts descending by score with ties left in
original input order (Python's stable sort — not ticker lexical order),
then re-assigns ranks 1..n after sorting; the output is a permutation of
the kept scored rows. -/
theorem C8_ranking (rows : List SRowIn) (c : ℚ) :
    ((scoreRows rows).map (·.score)).Pairwise (fun a b => b ≤ a) ∧
    (scoreRows rows).map (·.rank) = List.range' 1 (scoreRows rows).length ∧
    sortedOf rows ~ keepOf rows ∧
    (sortedOf rows).filter (fun r => decide (r.score = c)) =
      (keepOf rows).filter (fun r => decide (r.score = c)) := by
  refine ⟨?_, ?_, stSort_perm _ _, ?_⟩
  · rw [scoreRows, assignRanks_map_score]
    rw [List.pairwise_map]
    refine stSort_pairwise scoreLater ?_ ?_ ?_ (keepOf rows)
    · exact fun a b c hab hbc => le_trans hbc hab
    · intro a b h
      have hlt : a.score < b.score := by simpa [scoreLater] using h
      exact hlt.le
    · intro a b h
      have hnlt : ¬a.score < b.score := by simpa [scoreLater] using h
      exact not_lt.mp hnlt
  · rw [scoreRows, assignRanks_map_rank, assignRanks_length]
  · refine stSort_filter scoreLater _ ?_ (keepOf rows)
    intro a b ha hb
    have ha2 : a.score = c := by simpa using ha
    have hb2 : b.score = c := by simpa using hb
    simp [scoreLater, ha2, hb2]

/-- C8 counterexample: two rows with identical features (hence equal
scores) arriving in the order ZZZ, AAA keep that order: ZZZ gets rank 1
although AAA is lexically smaller — ties are NOT broken by ticker. -/
theorem C8_counterexample :
    (scoreRows [srowZ, srowA]).map (fun r => (r.ticker, r.rank)) =
      [("ZZZ", 1), ("AAA", 2)] ∧
    (scoreRows [srowZ, srowA]).map (·.score) = [9 / 20, 9 / 20] ∧
    "AAA" < "ZZZ" := by
  refine ⟨?_, ?_, by rw [String.lt_iff_toList_lt]; decide⟩ <;>
    norm_num [scoreRows, sortedOf, keepOf, srowZ, srowA, List.filterMap_cons,
      fallbackScore, npClip, qmin, qmax, qabs, stSort, stInsert, scoreLater,
      assignRanks]

/-- C7 (amended): per-ticker faults never terminate a run — a failed
ticker is simply absent from the collected rows, leaving the other
tickers' results unchanged. build_candidates (and daily_ai_score when
model scoring succeeds) exits non-zero exactly when zero usable rows were
built; score_today_from_polygon, however, always completes with status 0,
writing an empty row set when nothing was usable (and daily_ai_score
exits 3 on a scoring failure even with usable rows). -/
theorem C7_exit (res : List (Option CRow)) (xs ys : List (Option CRow))
    (dres : List (Option DRow)) (sres : List (Option SRowIn)) (r0 : DRow) :
    (buildMainExit res ≠ 0 ↔ res.filterMap id = []) ∧
    buildMainExit (xs ++ none :: ys) = buildMainExit (xs ++ ys) ∧
    (dailyMainExit dres true ≠ 0 ↔ dres.filterMap id = []) ∧
    dailyMainExit (some r0 :: dres) false = 3 ∧
    (scoreTodayMainRun sres).1 = 0 := by
  refine ⟨?_, ?_, ?_, by simp [dailyMainExit, List.filterMap_cons], rfl⟩
  · cases hres : res.filterMap id with
    | nil => simp [buildMainExit, hres]
    | cons a t => simp [buildMainExit, hres]
  · simp [buildMainExit, List.filterMap_append, List.filterMap_cons]
  · cases hres : dres.filterMap id with
    | nil => simp [dailyMainExit, hres]
    | cons a t => simp [dailyMainExit, hres]

/-- C7 counterexample: a universe whose single ticker produced no usable
FeatureVector still ends with completion status 0 in
score_today_from_polygon.main (an empty rows list is written), not the
claimed non-zero status. -/
theorem C7_counterexample :
    (scoreTodayMainRun [none]).1 = 0 ∧ (scoreTodayMainRun [none]).2 = [] :=
  ⟨rfl, rfl⟩

/-- C10 (amended): for every configuration with MAX_TICKERS ≥ 1,
resolve_universe returns a non-empty list of at most MAX_TICKERS tickers,
silently falling back to the hardcoded default universe (truncated) when
neither the Finviz file nor the explicit environment yields tickers. With
MAX_TICKERS ≤ 0 the result can be empty (see the counterexample). -/
theorem C10_universe (src : String) (f e : List String) (m : ℤ) (hm : 1 ≤ m) :
    resolveUniverse src f e m ≠ [] ∧
    (resolveUniverse src f e m).length ≤ m.toNat ∧
    (¬(src = "FINVIZ_FILE" ∧ f ≠ []) → e = [] →
      resolveUniverse src f e m = defaultUniverse.take m.toNat) := by
  have hslice : ∀ l : List String, l ≠ [] →
      pySlice l m ≠ [] ∧ (pySlice l m).length ≤ m.toNat := by
    intro l hl
    rw [pySlice, if_pos (by omega : (0 : ℤ) ≤ m)]
    refine ⟨?_, by simp [List.length_take_le]⟩
    cases l with
    | nil => exact absurd rfl hl
    | cons a t =>
      cases hmn : m.toNat with
      | zero => omega
      | succ k => simp [List.take]
  by_cases h1 : src = "FINVIZ_FILE" ∧ f ≠ []
  · have hs := hslice f h1.2
    rw [resolveUniverse, if_pos h1]
    exact ⟨hs.1, hs.2, fun hcon _ => absurd h1 hcon⟩
  · by_cases h2 : e = []
    · have hs := hslice defaultUniverse (by simp [defaultUniverse])
      have hr : resolveUniverse src f e m = pySlice defaultUniverse m := by
        rw [resolveUniverse, if_neg h1, if_neg (by simpa using h2)]
      refine ⟨hr ▸ hs.1, hr ▸ hs.2, fun _ _ => ?_⟩
      rw [hr, pySlice, if_pos (by omega : (0 : ℤ) ≤ m)]
    · have hs := hslice e h2
      have hr : resolveUniverse src f e m = pySlice e m := by
        rw [resolveUniverse, if_neg h1, if_pos h2]
      exact ⟨hr ▸ hs.1, hr ▸ hs.2, fun _ he => absurd he h2⟩

/-- C10 witness: with both sources empty and MAX_TICKERS = 2 the resolver
returns the truncated default universe. -/
theorem C10_universe_witness :
    resolveUniverse "AUTO" [] [] 2 ≠ [] ∧
    (resolveUniverse "AUTO" [] [] 2).length ≤ (2 : ℤ).toNat ∧
    (¬("AUTO" = "FINVIZ_FILE" ∧ ([] : List String) ≠ []) →
      ([] : List String) = [] →
      resolveUniverse "AUTO" [] [] 2 = defaultUniverse.take (2 : ℤ).toNat) :=
  C10_universe "AUTO" [] [] 2 (by norm_num)

/-- C10 counterexample: the claim promises a non-empty universe for every
environment configuration, but MAX_TICKERS = 0 (a legal setting of the
MAX_TICKERS environment variable) makes resolve_universe return the empty
list. -/
theorem C10_counterexample :
    resolveUniverse "FINVIZ_FILE" [] [] 0 = [] := by
  simp [resolveUniverse, pySlice, defaultUniverse]
